import Mathlib

/-
Shallow embedding of the core decision logic of the truly-ai Python backend:

* `Python_backend/librosa_audio.py` (`LocalAudioAnalyzer`): the heuristic
  audio-type classifier, the mood classifier, and the instrumentalness
  computation of the music analysis.
* `Python_backend/tests/multimodal_service.py` (`_analyze_video_frames`):
  timeframe resolution, frame-index sampling, and the frame analysis loop
  that silently drops failed frames.
* `Python_backend/app/services/video_service.py` (`VideoService`): the
  uniform frame sampler `_extract_frames`, the per-frame analysis loop of
  `analyze_video`, and `_generate_video_summary`.
* `Python_backend/app/routers/batch.py` (`analyze_batch`): the batch
  orchestrator with its size cap and per-item failure isolation.

Python floats are modelled as exact rationals, Python ints as Nat/Int.
External library calls (librosa feature extraction, cv2 decoding, model
inference) are out of scope and appear only as injected functions or as
already-computed scalar inputs, mirroring the data that crosses the
boundary in the source.
-/

/- ====================================================================
   librosa_audio.py : LocalAudioAnalyzer
   ==================================================================== -/

/-- Feature vector as produced by `LocalAudioAnalyzer._extract_features`
(only the fields read by the decision logic under verification). -/
structure AudioFeatures where
  tempo : ℚ
  spectral_centroid_mean : ℚ
  spectral_centroid_std : ℚ
  rms_energy_mean : ℚ
  zero_crossing_rate_mean : ℚ

/-- Decision part of `LocalAudioAnalyzer._detect_audio_type` (lines 108-113),
taking the two librosa-computed statistics as inputs. -/
def detect_audio_type (zcr_mean sc_std : ℚ) : String :=
  if 0.1 < zcr_mean ∧ sc_std < 1000 then "speech"
  else if zcr_mean < 0.08 ∧ 1000 < sc_std then "music"
  else "mixed"

/-- Valence branch of `LocalAudioAnalyzer._analyze_mood` (lines 156-161). -/
def valence_of (f : AudioFeatures) : String :=
  if 2000 < f.spectral_centroid_mean ∧ 0.1 < f.rms_energy_mean then "positive"
  else if f.spectral_centroid_mean < 1500 ∧ f.rms_energy_mean < 0.08 then "negative"
  else "neutral"

/-- Arousal branch of `LocalAudioAnalyzer._analyze_mood` (lines 164-169). -/
def arousal_of (f : AudioFeatures) : String :=
  if 120 < f.tempo ∨ 0.15 < f.rms_energy_mean then "high"
  else if f.tempo < 90 ∧ f.rms_energy_mean < 0.08 then "low"
  else "medium"

/-- The `mood_map` dictionary of `_analyze_mood` (lines 172-182); `none`
corresponds to a key that is absent from the Python dict. -/
def mood_map (p : String × String) : Option String :=
  match p with
  | ("positive", "high") => some "Happy/Energetic"
  | ("positive", "medium") => some "Content/Pleasant"
  | ("positive", "low") => some "Peaceful/Relaxed"
  | ("neutral", "high") => some "Excited/Tense"
  | ("neutral", "medium") => some "Neutral/Balanced"
  | ("neutral", "low") => some "Calm/Subdued"
  | ("negative", "high") => some "Angry/Aggressive"
  | ("negative", "medium") => some "Melancholic/Somber"
  | ("negative", "low") => some "Sad/Depressing"
  | _ => none

/-- Return value of `_analyze_mood` (lines 186-192). -/
structure MoodResult where
  mood : String
  valence : String
  arousal : String
  tempo : ℚ
  energy : ℚ

/-- `LocalAudioAnalyzer._analyze_mood`: the Python `mood_map.get(key, 'Unknown')`
becomes `(mood_map key).getD "Unknown"`. -/
def analyze_mood (f : AudioFeatures) : MoodResult :=
  { mood := (mood_map (valence_of f, arousal_of f)).getD "Unknown"
    valence := valence_of f
    arousal := arousal_of f
    tempo := f.tempo
    energy := f.rms_energy_mean }

/-- Instrumentalness computation of `LocalAudioAnalyzer._analyze_music`
(lines 210-214): `harmonic_energy / (total_energy + 1e-10) if total_energy > 0
else 0.5`, with the energies being the librosa-computed sums of squares of the
harmonic and percussive components. -/
def instrumentalness_of (harmonic_energy percussive_energy : ℚ) : ℚ :=
  let total_energy := harmonic_energy + percussive_energy
  if 0 < total_energy then harmonic_energy / (total_energy + 1e-10) else 0.5

/- ====================================================================
   tests/multimodal_service.py : AWSMultimodalService._analyze_video_frames
   ==================================================================== -/

/-- Python `int()` applied to a float: truncation toward zero. -/
def pyInt (q : ℚ) : ℤ :=
  if 0 ≤ q then ⌊q⌋ else ⌈q⌉

/-- Python `max(a, b)` on integers. -/
def pymax (a b : ℤ) : ℤ := if a ≤ b then b else a

/-- Python `min(a, b)` on integers. -/
def pymin (a b : ℤ) : ℤ := if a ≤ b then a else b

/-- Timeframe boundary resolution of `_analyze_video_frames` (lines 373-388):
with a window, `start_frame = int(start_time*fps)` clamped by
`max(0, min(·, total_frames - 1))` and `end_frame = int(end_time*fps)` clamped
by `max(start_frame + 1, min(·, total_frames))`; without a window,
`(0, total_frames)`. -/
def resolve_timeframe (total_frames : ℕ) (fps : ℚ) (window : Option (ℚ × ℚ)) :
    ℕ × ℕ :=
  match window with
  | some (start_time, end_time) =>
    let s0 : ℤ := pyInt (start_time * fps)
    let e0 : ℤ := pyInt (end_time * fps)
    let s : ℤ := pymax 0 (pymin s0 ((total_frames : ℤ) - 1))
    let e : ℤ := pymax (s + 1) (pymin e0 (total_frames : ℤ))
    (s.toNat, e.toNat)
  | none => (0, total_frames)

/-- Modelled from the spec: the window resolution as the specification words
it — conversion of each time to a frame index via `round(time * frameRate)`,
clamping of both indices into `[0, totalFrames]`, and forcing
`endFrame = startFrame + 1` whenever the resulting `endFrame <= startFrame`.
Kept separate from `resolve_timeframe` (the source translation) so the two
can be compared. -/
def resolve_timeframe_spec (total_frames : ℕ) (fps start_time end_time : ℚ) :
    ℕ × ℕ :=
  let s : ℤ := pymax 0 (pymin (round (start_time * fps)) (total_frames : ℤ))
  let e0 : ℤ := pymax 0 (pymin (round (end_time * fps)) (total_frames : ℤ))
  let e : ℤ := if e0 ≤ s then s + 1 else e0
  (s.toNat, e.toNat)

/-- Frame-index selection of `_analyze_video_frames` (lines 391-397):
all indices of the timeframe when it holds fewer frames than requested,
otherwise `num_frames` evenly spaced indices
`start_frame + int(i * timeframe_frames / num_frames)`. -/
def sample_frame_indices (start_frame end_frame num_frames : ℕ) : List ℕ :=
  let timeframe_frames := end_frame - start_frame
  if timeframe_frames < num_frames then
    List.range' start_frame timeframe_frames
  else
    (List.range num_frames).map (fun i => start_frame + i * timeframe_frames / num_frames)

/-- Result dictionary of `WorkingAWSAnalyzer.analyze_image` as consumed by
the frame loop: the `success` flag, `description` and `model_used` fields. -/
structure AwsImageResult where
  success : Bool
  description : String
  model_used : String

/-- One entry of the `frame_analyses` list built by `_analyze_video_frames`
(lines 430-435). -/
structure MMFrameAnalysis where
  frame_number : ℕ
  timestamp : ℚ
  description : String
  model : String

/-- The record appended for a successfully analyzed frame, including the
timestamp computation `frame_idx / fps if fps > 0 else 0` (line 421). -/
def mm_frame_record (analyze_image : ℕ → AwsImageResult) (fps : ℚ) (idx : ℕ) :
    MMFrameAnalysis :=
  { frame_number := idx
    timestamp := if 0 < fps then (idx : ℚ) / fps else 0
    description := (analyze_image idx).description
    model := (analyze_image idx).model_used }

/-- Frame analysis loop of `_analyze_video_frames` (lines 403-435):
a frame whose `cap.read()` fails (`read_frame idx = false`) is skipped via
`continue`; a frame whose analysis result has `success = false` is likewise
never appended. Only successful frames produce entries. -/
def mm_frame_loop (read_frame : ℕ → Bool) (analyze_image : ℕ → AwsImageResult)
    (fps : ℚ) : List ℕ → List MMFrameAnalysis
  | [] => []
  | idx :: rest =>
    if read_frame idx = false then mm_frame_loop read_frame analyze_image fps rest
    else if (analyze_image idx).success then
      mm_frame_record analyze_image fps idx ::
        mm_frame_loop read_frame analyze_image fps rest
    else mm_frame_loop read_frame analyze_image fps rest

/-- The overall `success` flag of the `_analyze_video_frames` return value
(line 457): `len(frame_analyses) > 0`. -/
def mm_result_success (frame_analyses : List MMFrameAnalysis) : Bool :=
  decide (0 < frame_analyses.length)

/- ====================================================================
   app/services/video_service.py : VideoService
   ==================================================================== -/

/-- Uniform frame-index selection of `VideoService._extract_frames`
(lines 177-189): `int(i * total_frames / num_frames)` for `i` in
`range(num_frames)` (both the "uniform" branch and its fallback). -/
def extract_frame_indices (total_frames num_frames : ℕ) : List ℕ :=
  (List.range num_frames).map (fun i => i * total_frames / num_frames)

/-- One element of the `frames_data` list produced by `_extract_frames`
(lines 205-209); the decoded image payload is opaque to the core. -/
structure FrameData (α : Type) where
  image : α
  frame_number : ℕ
  timestamp : ℚ

/-- One entry of the `frame_analyses` list built by
`VideoService.analyze_video` (lines 73-85). -/
structure FrameAnalysis where
  timestamp : ℚ
  frame_number : ℕ
  description : String
deriving DecidableEq

/-- The description recorded for one frame by the `analyze_video` loop:
the model's description on success, `"Analysis failed: {str(e)}"` when the
per-frame call raises (lines 76 and 84). -/
def frame_description (r : Except String String) : String :=
  match r with
  | Except.ok d => d
  | Except.error e => "Analysis failed: " ++ e

/-- The entry appended for one frame by the `analyze_video` loop
(lines 73-77 on success, 81-85 on a raised exception). -/
def frame_record {α : Type} (analyze : FrameData α → Except String String)
    (fd : FrameData α) : FrameAnalysis :=
  { timestamp := fd.timestamp
    frame_number := fd.frame_number
    description := frame_description (analyze fd) }

/-- Per-frame analysis loop of `VideoService.analyze_video` (lines 64-85):
every frame contributes exactly one entry, successful or failed, in input
order. The injected `analyze` stands for the `moondream_model.analyze_video_frame`
call; `Except.error e` models a raised exception with message `str(e) = e`. -/
def analyze_frames {α : Type} (analyze : FrameData α → Except String String) :
    List (FrameData α) → List FrameAnalysis
  | [] => []
  | fd :: rest => frame_record analyze fd :: analyze_frames analyze rest

/-- Python `f"{q:.1f}"` on an exact rational: one decimal digit. -/
def fmt1 (q : ℚ) : String :=
  let n : ℤ := round (q * 10)
  toString (n / 10) ++ "." ++ toString (n % 10).natAbs

/-- `VideoService._generate_video_summary` (lines 218-249), translated
clause by clause: the emptiness test on `frame_analyses`, the filter on
truthy (non-empty) descriptions, the single-description special case, and
the multi-description join with the `"This video contains the following
scenes:"` header. The index `i` into `frame_analyses` comes from
enumerating the filtered `descriptions` list, exactly as in the source. -/
def generate_video_summary (frame_analyses : List FrameAnalysis) : String :=
  if frame_analyses = [] then
    "No frames were successfully analyzed."
  else
    let descriptions :=
      (frame_analyses.filter (fun fr => fr.description != "")).map
        (fun fr => fr.description)
    if descriptions = [] then
      "Video analysis completed but no descriptions were generated."
    else if descriptions.length = 1 then
      "This video shows: " ++ descriptions.getD 0 ""
    else
      let summary_parts := "This video contains the following scenes:" ::
        (List.range descriptions.length).map (fun i =>
          "At " ++
            fmt1 ((frame_analyses.getD i
              { timestamp := 0, frame_number := 0, description := "" }).timestamp) ++
            "s: " ++ descriptions.getD i "")
      String.intercalate " " summary_parts

/- ====================================================================
   app/routers/batch.py : analyze_batch
   ==================================================================== -/

/-- One entry of the `results` list of `analyze_batch`: the success dict
`{"file_index": i, ..., "success": True, "result": result}` or the failure
dict `{"file_index": i, ..., "success": False, "error": str(e)}`
(lines 75-90). The analysis payload is opaque to the orchestrator. -/
inductive PerItemResult (β : Type) where
  | success (file_index : ℕ) (result : β)
  | failure (file_index : ℕ) (error : String)
deriving DecidableEq

/-- The record appended for item `i`: success payload if its analysis
returned, failure with `str(e)` if it raised. -/
def item_result {β : Type} (i : ℕ) : Except String β → PerItemResult β
  | Except.ok r => PerItemResult.success i r
  | Except.error e => PerItemResult.failure i e

/-- The `for i, file in enumerate(files)` loop of `analyze_batch`
(lines 55-90), carrying the running index. -/
def process_files_from {α β : Type} (analyze : α → Except String β) :
    ℕ → List α → List (PerItemResult β)
  | _, [] => []
  | i, f :: rest => item_result i (analyze f) :: process_files_from analyze (i + 1) rest

/-- The full loop, starting at index 0. -/
def process_files {α β : Type} (analyze : α → Except String β)
    (files : List α) : List (PerItemResult β) :=
  process_files_from analyze 0 files

/-- The `r["success"]` flag of a result entry. -/
def is_success {β : Type} : PerItemResult β → Bool
  | PerItemResult.success _ _ => true
  | PerItemResult.failure _ _ => false

/-- The response payload assembled at lines 94-100. -/
structure BatchResponse (β : Type) where
  results : List (PerItemResult β)
  total_files : ℕ
  successful : ℕ
  failed : ℕ
deriving DecidableEq

/-- Assembly of the batch response: `total_files = len(files)`,
`successful = len([r for r in results if r["success"]])`,
`failed = len([r for r in results if not r["success"]])`. -/
def mk_batch_response {α β : Type} (analyze : α → Except String β)
    (files : List α) : BatchResponse β :=
  let results := process_files analyze files
  { results := results
    total_files := files.length
    successful := (results.filter (fun r => is_success r)).length
    failed := (results.filter (fun r => ! is_success r)).length }

/-- An `HTTPException(status_code, detail)` raised by the endpoint. -/
structure HTTPError where
  status_code : ℕ
  detail : String
deriving DecidableEq

/-- The `analyze_batch` endpoint (lines 37-100): the model-readiness check
(503), then the batch-size cap `len(files) > 10` (400), then the sequential
per-file loop and response assembly. A raised `HTTPException` is modelled
as `Except.error`. -/
def analyze_batch {α β : Type} (ready : Bool) (analyze : α → Except String β)
    (files : List α) : Except HTTPError (BatchResponse β) :=
  if ready = false then
    Except.error
      { status_code := 503
        detail := "Models not loaded. Please wait for initialization to complete." }
  else if 10 < files.length then
    Except.error
      { status_code := 400
        detail := "Maximum 10 files allowed per batch request" }
  else
    Except.ok (mk_batch_response analyze files)

/- ====================================================================
   Helper lemmas
   ==================================================================== -/

lemma valence_of_eq_positive (f : AudioFeatures) :
    valence_of f = "positive" ↔
      (2000 < f.spectral_centroid_mean ∧ 0.1 < f.rms_energy_mean) := by
  unfold valence_of
  split_ifs with h1 h2
  · simp [h1]
  · constructor
    · intro h; simp at h
    · intro hc; exact absurd hc h1
  · constructor
    · intro h; simp at h
    · intro hc; exact absurd hc h1

lemma valence_of_eq_negative (f : AudioFeatures) :
    valence_of f = "negative" ↔
      (f.spectral_centroid_mean < 1500 ∧ f.rms_energy_mean < 0.08) := by
  unfold valence_of
  split_ifs with h1 h2
  · constructor
    · intro h; simp at h
    · rintro ⟨hl, _⟩; exact absurd hl (by linarith [h1.1])
  · simp [h2]
  · constructor
    · intro h; simp at h
    · intro hc; exact absurd hc h2

lemma valence_of_eq_neutral (f : AudioFeatures) :
    valence_of f = "neutral" ↔
      (¬(2000 < f.spectral_centroid_mean ∧ 0.1 < f.rms_energy_mean) ∧
        ¬(f.spectral_centroid_mean < 1500 ∧ f.rms_energy_mean < 0.08)) := by
  unfold valence_of
  split_ifs with h1 h2
  · constructor
    · intro h; simp at h
    · rintro ⟨ha, _⟩; exact absurd h1 ha
  · constructor
    · intro h; simp at h
    · rintro ⟨_, hb⟩; exact absurd h2 hb
  · simp [h1, h2]

lemma arousal_of_eq_high (f : AudioFeatures) :
    arousal_of f = "high" ↔ (120 < f.tempo ∨ 0.15 < f.rms_energy_mean) := by
  unfold arousal_of
  split_ifs with h1 h2
  · simp [h1]
  · constructor
    · intro h; simp at h
    · intro hc; exact absurd hc h1
  · constructor
    · intro h; simp at h
    · intro hc; exact absurd hc h1

lemma arousal_of_eq_low (f : AudioFeatures) :
    arousal_of f = "low" ↔ (f.tempo < 90 ∧ f.rms_energy_mean < 0.08) := by
  unfold arousal_of
  split_ifs with h1 h2
  · constructor
    · intro h; simp at h
    · rintro ⟨h90, he⟩
      rcases h1 with h | h
      · linarith
      · linarith
  · simp [h2]
  · constructor
    · intro h; simp at h
    · intro hc; exact absurd hc h2

lemma arousal_of_eq_medium (f : AudioFeatures) :
    arousal_of f = "medium" ↔
      (¬(120 < f.tempo ∨ 0.15 < f.rms_energy_mean) ∧
        ¬(f.tempo < 90 ∧ f.rms_energy_mean < 0.08)) := by
  unfold arousal_of
  split_ifs with h1 h2
  · constructor
    · intro h; simp at h
    · rintro ⟨ha, _⟩; exact absurd h1 ha
  · constructor
    · intro h; simp at h
    · rintro ⟨_, hb⟩; exact absurd h2 hb
  · simp [h1, h2]

lemma valence_of_mem (f : AudioFeatures) :
    valence_of f = "positive" ∨ valence_of f = "negative" ∨
      valence_of f = "neutral" := by
  unfold valence_of
  split_ifs <;> simp

lemma arousal_of_mem (f : AudioFeatures) :
    arousal_of f = "high" ∨ arousal_of f = "low" ∨ arousal_of f = "medium" := by
  unfold arousal_of
  split_ifs <;> simp

/- ====================================================================
   Claim C2 — audio-type decision
   ==================================================================== -/

/-- Claim C2: the classifier returns "speech" exactly when
`zeroCrossingRateMean > 0.10 ∧ spectralCentroidStd < 1000`, "music" exactly
when `zeroCrossingRateMean < 0.08 ∧ spectralCentroidStd > 1000`, and "mixed"
exactly in the remaining cases. -/
theorem audio_type_decision (zcr_mean sc_std : ℚ) :
    (detect_audio_type zcr_mean sc_std = "speech" ↔
      (0.1 < zcr_mean ∧ sc_std < 1000)) ∧
    (detect_audio_type zcr_mean sc_std = "music" ↔
      (zcr_mean < 0.08 ∧ 1000 < sc_std)) ∧
    (detect_audio_type zcr_mean sc_std = "mixed" ↔
      (¬(0.1 < zcr_mean ∧ sc_std < 1000) ∧ ¬(zcr_mean < 0.08 ∧ 1000 < sc_std))) := by
  refine ⟨?_, ?_, ?_⟩ <;> unfold detect_audio_type
  · split_ifs with h1 h2
    · simp [h1]
    · constructor
      · intro h; simp at h
      · intro hc; exact absurd hc h1
    · constructor
      · intro h; simp at h
      · intro hc; exact absurd hc h1
  · split_ifs with h1 h2
    · constructor
      · intro h; simp at h
      · rintro ⟨hl, _⟩; exact absurd hl (by linarith [h1.1])
    · simp [h2]
    · constructor
      · intro h; simp at h
      · intro hc; exact absurd hc h2
  · split_ifs with h1 h2
    · constructor
      · intro h; simp at h
      · rintro ⟨ha, _⟩; exact absurd h1 ha
    · constructor
      · intro h; simp at h
      · rintro ⟨_, hb⟩; exact absurd h2 hb
    · simp [h1, h2]

/-- Witness for C2: the boundary input
`zeroCrossingRateMean = 0.09, spectralCentroidStd = 500` satisfies neither
branch condition and is classified "mixed". -/
theorem audio_type_decision_witness :
    detect_audio_type 0.09 500 = "mixed" :=
  (audio_type_decision 0.09 500).2.2.mpr (by norm_num)

/- ====================================================================
   Claim C3 — mood decision
   ==================================================================== -/

/-- Claim C3: valence is "positive" iff
`spectralCentroidMean > 2000 ∧ rmsEnergyMean > 0.10`, "negative" iff
`spectralCentroidMean < 1500 ∧ rmsEnergyMean < 0.08`, else "neutral";
arousal is "high" iff `tempo > 120 ∨ rmsEnergyMean > 0.15`, "low" iff
`tempo < 90 ∧ rmsEnergyMean < 0.08`, else "medium"; and the lookup on
`(valence, arousal)` always yields one of the nine fixed labels, never
"Unknown". -/
theorem mood_decision (f : AudioFeatures) :
    ((analyze_mood f).valence = "positive" ↔
      (2000 < f.spectral_centroid_mean ∧ 0.1 < f.rms_energy_mean)) ∧
    ((analyze_mood f).valence = "negative" ↔
      (f.spectral_centroid_mean < 1500 ∧ f.rms_energy_mean < 0.08)) ∧
    ((analyze_mood f).valence = "neutral" ↔
      (¬(2000 < f.spectral_centroid_mean ∧ 0.1 < f.rms_energy_mean) ∧
        ¬(f.spectral_centroid_mean < 1500 ∧ f.rms_energy_mean < 0.08))) ∧
    ((analyze_mood f).arousal = "high" ↔
      (120 < f.tempo ∨ 0.15 < f.rms_energy_mean)) ∧
    ((analyze_mood f).arousal = "low" ↔
      (f.tempo < 90 ∧ f.rms_energy_mean < 0.08)) ∧
    ((analyze_mood f).arousal = "medium" ↔
      (¬(120 < f.tempo ∨ 0.15 < f.rms_energy_mean) ∧
        ¬(f.tempo < 90 ∧ f.rms_energy_mean < 0.08))) ∧
    (analyze_mood f).mood ≠ "Unknown" ∧
    (analyze_mood f).mood ∈
      ["Happy/Energetic", "Content/Pleasant", "Peaceful/Relaxed",
        "Excited/Tense", "Neutral/Balanced", "Calm/Subdued",
        "Angry/Aggressive", "Melancholic/Somber", "Sad/Depressing"] := by
  have hmood : (analyze_mood f).mood =
      (mood_map (valence_of f, arousal_of f)).getD "Unknown" := rfl
  have hne : (analyze_mood f).mood ≠ "Unknown" ∧ (analyze_mood f).mood ∈
      ["Happy/Energetic", "Content/Pleasant", "Peaceful/Relaxed",
        "Excited/Tense", "Neutral/Balanced", "Calm/Subdued",
        "Angry/Aggressive", "Melancholic/Somber", "Sad/Depressing"] := by
    rw [hmood]
    rcases valence_of_mem f with hv | hv | hv <;>
      rcases arousal_of_mem f with ha | ha | ha <;>
      rw [hv, ha] <;> simp [mood_map]
  exact ⟨valence_of_eq_positive f, valence_of_eq_negative f,
    valence_of_eq_neutral f, arousal_of_eq_high f, arousal_of_eq_low f,
    arousal_of_eq_medium f, hne.1, hne.2⟩

/-- Witness for C3: the spec's example
`tempo = 130, rmsEnergyMean = 0.2, spectralCentroidMean = 2500` gives
valence "positive", arousal "high", mood "Happy/Energetic". -/
theorem mood_decision_witness :
    (analyze_mood ⟨130, 2500, 0, 0.2, 0⟩).mood = "Happy/Energetic" ∧
    (analyze_mood ⟨130, 2500, 0, 0.2, 0⟩).valence = "positive" ∧
    (analyze_mood ⟨130, 2500, 0, 0.2, 0⟩).arousal = "high" ∧
    (analyze_mood ⟨130, 2500, 0, 0.2, 0⟩).mood ≠ "Unknown" :=
  ⟨by norm_num [analyze_mood, mood_map, valence_of, arousal_of],
    (mood_decision ⟨130, 2500, 0, 0.2, 0⟩).1.mpr (by norm_num),
    (mood_decision ⟨130, 2500, 0, 0.2, 0⟩).2.2.2.1.mpr (by norm_num),
    (mood_decision ⟨130, 2500, 0, 0.2, 0⟩).2.2.2.2.2.2.1⟩

/- ====================================================================
   Claim C9 — instrumentalness silence guard
   ==================================================================== -/

/-- Claim C9: with non-negative energies, both zero gives instrumentalness
exactly 0.5 (no division occurs), and a positive total energy gives
`harmonicEnergy / (harmonicEnergy + percussiveEnergy + 1e-10)`. -/
theorem silence_guard (harmonic_energy percussive_energy : ℚ)
    (hh : 0 ≤ harmonic_energy) (hp : 0 ≤ percussive_energy) :
    (harmonic_energy = 0 ∧ percussive_energy = 0 →
      instrumentalness_of harmonic_energy percussive_energy = 0.5) ∧
    (0 < harmonic_energy + percussive_energy →
      instrumentalness_of harmonic_energy percussive_energy =
        harmonic_energy / (harmonic_energy + percussive_energy + 1e-10)) := by
  constructor
  · rintro ⟨h0, p0⟩
    subst h0; subst p0
    norm_num [instrumentalness_of]
  · intro hpos
    unfold instrumentalness_of
    rw [if_pos hpos]

/-- Witness for C9: all-silent input yields exactly 1/2; a concrete
positive-energy input takes the epsilon-guarded quotient. -/
theorem silence_guard_witness :
    instrumentalness_of 0 0 = 0.5 ∧
    instrumentalness_of 3 1 = 3 / (3 + 1 + 1e-10) :=
  ⟨(silence_guard 0 0 le_rfl le_rfl).1 ⟨rfl, rfl⟩,
    (silence_guard 3 1 (by norm_num) (by norm_num)).2 (by norm_num)⟩

/- ====================================================================
   Batch orchestrator lemmas
   ==================================================================== -/

lemma process_files_from_length {α β : Type} (analyze : α → Except String β)
    (k : ℕ) (files : List α) :
    (process_files_from analyze k files).length = files.length := by
  induction files generalizing k with
  | nil => rfl
  | cons f rest ih => simp [process_files_from, ih]

lemma process_files_from_getElem {α β : Type} (analyze : α → Except String β)
    (k j : ℕ) (files : List α) :
    (process_files_from analyze k files)[j]? =
      (files[j]?).map (fun b => item_result (k + j) (analyze b)) := by
  induction files generalizing k j with
  | nil => simp [process_files_from]
  | cons f rest ih =>
    cases j with
    | zero => simp [process_files_from]
    | succ j =>
      simp only [process_files_from, List.getElem?_cons_succ, ih (k + 1) j]
      have : k + 1 + j = k + (j + 1) := by omega
      rw [this]

lemma process_files_getElem {α β : Type} (analyze : α → Except String β)
    (j : ℕ) (files : List α) :
    (process_files analyze files)[j]? =
      (files[j]?).map (fun b => item_result j (analyze b)) := by
  have h := process_files_from_getElem analyze 0 j files
  simpa [process_files] using h

lemma filter_length_partition {γ : Type} (l : List γ) (p : γ → Bool) :
    (l.filter p).length + (l.filter (fun x => ! p x)).length = l.length := by
  induction l with
  | nil => rfl
  | cons a t ih =>
    by_cases h : p a = true
    · simp [List.filter_cons, h, ih]
      omega
    · simp only [List.filter_cons, h, Bool.not_eq_true] at *
      simp [h, ih]
      omega

/- ====================================================================
   Claim C4 — orchestrator failure isolation
   ==================================================================== -/

/-- Claim C4: if analyzing the item at position `i` raises (returns
`Except.error e`), the loop records a per-item failure carrying that error
string at position `i`, and every item of the batch — before and after the
failing one — still gets exactly the record its own analysis outcome
dictates; no failure aborts the rest. -/
theorem orchestrator_isolation {α β : Type} (files : List α)
    (analyze : α → Except String β) (i : ℕ) (a : α) (e : String)
    (hi : files[i]? = some a) (he : analyze a = Except.error e) :
    (process_files analyze files).length = files.length ∧
    (process_files analyze files)[i]? = some (PerItemResult.failure i e) ∧
    (∀ j b, files[j]? = some b →
      (process_files analyze files)[j]? = some (item_result j (analyze b))) := by
  refine ⟨process_files_from_length analyze 0 files, ?_, ?_⟩
  · rw [process_files_getElem, hi]
    simp [item_result, he]
  · intro j b hj
    rw [process_files_getElem, hj]
    rfl

/-- Witness for C4: in a concrete three-item batch whose middle item's
analysis raises, the middle position holds a failure record with the raised
message and the last item is still analyzed. -/
theorem orchestrator_isolation_witness :
    (process_files (fun n : ℕ => if n = 20 then Except.error "boom" else Except.ok n)
      [10, 20, 30]).length = 3 ∧
    (process_files (fun n : ℕ => if n = 20 then Except.error "boom" else Except.ok n)
      [10, 20, 30])[1]? = some (PerItemResult.failure 1 "boom") ∧
    (process_files (fun n : ℕ => if n = 20 then Except.error "boom" else Except.ok n)
      [10, 20, 30])[2]? = some (PerItemResult.success 2 30) := by
  have h := orchestrator_isolation
    [10, 20, 30] (fun n : ℕ => if n = 20 then Except.error "boom" else Except.ok n)
    1 20 "boom" (by rfl) (by norm_num)
  exact ⟨h.1, h.2.1, by
    have h2 := h.2.2 2 30 (by rfl)
    simpa [item_result] using h2⟩

/- ====================================================================
   Claim C5 — batch result invariant
   ==================================================================== -/

/-- Claim C5: the assembled batch response has its per-item results in
input order (position `j` holds exactly the record of item `j`), every
item contributes exactly one result, and
`successful + failed = total_files = length of the result list`. -/
theorem batch_result_invariant {α β : Type} (files : List α)
    (analyze : α → Except String β) :
    (mk_batch_response analyze files).successful +
        (mk_batch_response analyze files).failed =
      (mk_batch_response analyze files).total_files ∧
    (mk_batch_response analyze files).total_files =
      (mk_batch_response analyze files).results.length ∧
    (mk_batch_response analyze files).results.length = files.length ∧
    (∀ j b, files[j]? = some b →
      (mk_batch_response analyze files).results[j]? =
        some (item_result j (analyze b))) := by
  have hlen : (process_files analyze files).length = files.length :=
    process_files_from_length analyze 0 files
  refine ⟨?_, ?_, ?_, ?_⟩
  · show ((process_files analyze files).filter (fun r => is_success r)).length +
      ((process_files analyze files).filter (fun r => ! is_success r)).length =
        files.length
    rw [filter_length_partition]
    exact hlen
  · exact hlen.symm
  · exact hlen
  · intro j b hj
    show (process_files analyze files)[j]? = _
    rw [process_files_getElem, hj]
    rfl

/-- Witness for C5: a concrete two-item batch with one success and one
failure satisfies the count identity and holds both records in input
order. -/
theorem batch_result_invariant_witness :
    (mk_batch_response
        (fun n : ℕ => if n = 2 then Except.error "bad" else Except.ok n)
        [1, 2]).successful +
      (mk_batch_response
        (fun n : ℕ => if n = 2 then Except.error "bad" else Except.ok n)
        [1, 2]).failed =
      (mk_batch_response
        (fun n : ℕ => if n = 2 then Except.error "bad" else Except.ok n)
        [1, 2]).total_files ∧
    (mk_batch_response
        (fun n : ℕ => if n = 2 then Except.error "bad" else Except.ok n)
        [1, 2]).results[0]? = some (PerItemResult.success 0 1) ∧
    (mk_batch_response
        (fun n : ℕ => if n = 2 then Except.error "bad" else Except.ok n)
        [1, 2]).results[1]? = some (PerItemResult.failure 1 "bad") := by
  have h := batch_result_invariant [1, 2]
    (fun n : ℕ => if n = 2 then Except.error "bad" else Except.ok n)
  refine ⟨h.1, ?_, ?_⟩
  · have h0 := h.2.2.2 0 1 (by rfl)
    simpa [item_result] using h0
  · have h1 := h.2.2.2 1 2 (by rfl)
    simpa [item_result] using h1

/- ====================================================================
   Claim C8 — batch size cap
   ==================================================================== -/

/-- Claim C8: a batch of more than 10 items is rejected as an error before
any per-item analysis runs (the error response carries no item results at
all), while with models ready a batch of at most 10 items proceeds to full
orchestration. -/
theorem batch_size_cap {α β : Type} (ready : Bool) (files : List α)
    (analyze : α → Except String β) :
    (10 < files.length →
      ∃ err : HTTPError, analyze_batch ready analyze files = Except.error err) ∧
    (ready = true → files.length ≤ 10 →
      analyze_batch ready analyze files =
        Except.ok (mk_batch_response analyze files)) := by
  constructor
  · intro hbig
    unfold analyze_batch
    cases ready with
    | false => exact ⟨_, rfl⟩
    | true =>
      rw [if_neg (by simp), if_pos hbig]
      exact ⟨_, rfl⟩
  · intro hready hsmall
    subst hready
    unfold analyze_batch
    rw [if_neg (by simp), if_neg (by omega)]

/-- Witness for C8: an eleven-item batch is rejected with no results, a
two-item batch is orchestrated. -/
theorem batch_size_cap_witness :
    (∃ err : HTTPError,
      analyze_batch true (fun n : ℕ => Except.ok n)
        [0, 1, 2, 3, 4, 5, 6, 7, 8, 9, 10] = Except.error err) ∧
    analyze_batch true (fun n : ℕ => Except.ok n) [1, 2] =
      Except.ok (mk_batch_response (fun n : ℕ => Except.ok n) [1, 2]) :=
  ⟨(batch_size_cap true [0, 1, 2, 3, 4, 5, 6, 7, 8, 9, 10]
      (fun n : ℕ => Except.ok n)).1 (by norm_num),
    (batch_size_cap true [1, 2] (fun n : ℕ => Except.ok n)).2 rfl (by norm_num)⟩

/- ====================================================================
   Frame sampler lemmas
   ==================================================================== -/

lemma pymax_eq (a b : ℤ) : pymax a b = max a b := by
  unfold pymax; split_ifs with h <;> omega

lemma pymin_eq (a b : ℤ) : pymin a b = min a b := by
  unfold pymin; split_ifs with h <;> omega

lemma mul_div_spacing (R n i j : ℕ) (hn : 0 < n) (hR : n ≤ R) (hij : i < j) :
    i * R / n < j * R / n := by
  have e1 : (i + 1) * R = i * R + R := by ring
  have h1 : i * R + n ≤ (i + 1) * R := by rw [e1]; omega
  calc i * R / n < (i * R + n) / n := by rw [Nat.add_div_right _ hn]; omega
    _ ≤ (i + 1) * R / n := Nat.div_le_div_right h1
    _ ≤ j * R / n := Nat.div_le_div_right (Nat.mul_le_mul_right R hij)

lemma mul_div_lt (R n i : ℕ) (hn : 0 < n) (hR : 0 < R) (hi : i < n) :
    i * R / n < R := by
  rw [Nat.div_lt_iff_lt_mul hn]
  calc i * R < n * R := (Nat.mul_lt_mul_right hR).mpr hi
    _ = R * n := by ring

lemma sample_frame_indices_length (s e n : ℕ) :
    (sample_frame_indices s e n).length = min n (e - s) := by
  simp only [sample_frame_indices]
  split_ifs with h
  · simp
    omega
  · simp
    omega

lemma sample_frame_indices_mem (s e n x : ℕ) (hn : 0 < n) (hse : s ≤ e)
    (hx : x ∈ sample_frame_indices s e n) : s ≤ x ∧ x < e := by
  simp only [sample_frame_indices] at hx
  split_ifs at hx with h
  · rw [List.mem_range'_1] at hx
    omega
  · simp only [List.mem_map, List.mem_range] at hx
    obtain ⟨i, hi, rfl⟩ := hx
    have hR : 0 < e - s := by omega
    have hlt : i * (e - s) / n < e - s := mul_div_lt (e - s) n i hn hR hi
    refine ⟨Nat.le_add_right s _, ?_⟩
    have h2 : s + i * (e - s) / n < s + (e - s) := Nat.add_lt_add_left hlt s
    omega

lemma sample_frame_indices_pairwise (s e n : ℕ) (hn : 0 < n) :
    (sample_frame_indices s e n).Pairwise (· < ·) := by
  simp only [sample_frame_indices]
  split_ifs with h
  · rw [List.range'_eq_map_range]
    refine (List.pairwise_lt_range _).map _ ?_
    intro a b hab
    omega
  · refine (List.pairwise_lt_range _).map _ ?_
    intro a b hab
    have := mul_div_spacing (e - s) n a b hn (by omega) hab
    omega

lemma resolve_timeframe_bounds (total_frames : ℕ) (fps : ℚ)
    (w : Option (ℚ × ℚ)) (s e : ℕ) (htot : 1 ≤ total_frames)
    (h : resolve_timeframe total_frames fps w = (s, e)) :
    s < e ∧ s < total_frames ∧ e ≤ max (s + 1) total_frames := by
  match w with
  | none =>
    simp only [resolve_timeframe] at h
    injection h with h1 h2
    omega
  | some (st, et) =>
    simp only [resolve_timeframe, pymax_eq, pymin_eq] at h
    injection h with h1 h2
    subst h1
    subst h2
    generalize pyInt (st * fps) = s0
    generalize pyInt (et * fps) = e0
    omega

lemma extract_frame_indices_length (t n : ℕ) :
    (extract_frame_indices t n).length = n := by
  simp [extract_frame_indices]

lemma extract_frame_indices_mem (t n y : ℕ) (ht : 0 < t) (hn : 0 < n)
    (hy : y ∈ extract_frame_indices t n) : y < t := by
  simp only [extract_frame_indices, List.mem_map, List.mem_range] at hy
  obtain ⟨i, hi, rfl⟩ := hy
  exact mul_div_lt t n i hn ht hi

lemma extract_frame_indices_pairwise (t n : ℕ) (hn : 0 < n) (hnt : n ≤ t) :
    (extract_frame_indices t n).Pairwise (· < ·) := by
  unfold extract_frame_indices
  refine (List.pairwise_lt_range _).map _ ?_
  intro a b hab
  exact mul_div_spacing t n a b hn hnt hab

/- ====================================================================
   Claim C1 — frame sampler coverage (amended)
   ==================================================================== -/

/-- Claim C1 as amended: for the windowed sampler of
`_analyze_video_frames`, the claim holds as stated — with any resolved
range `(s, e)` the index list has exactly `min desiredCount (e - s)`
elements, all in `[s, e)`, strictly increasing. The uniform sampler
`VideoService._extract_frames`, by contrast, always returns exactly
`desiredCount` indices in `[0, totalFrames)`, and they are strictly
increasing (duplicate-free) only when `desiredCount ≤ totalFrames`. -/
theorem sampler_coverage_amended (total_frames num_frames : ℕ) (fps : ℚ)
    (window : Option (ℚ × ℚ)) (s e : ℕ)
    (htot : 1 ≤ total_frames) (hn : 1 ≤ num_frames) (hn20 : num_frames ≤ 20)
    (hse : resolve_timeframe total_frames fps window = (s, e)) :
    (sample_frame_indices s e num_frames).length = min num_frames (e - s) ∧
    (∀ x ∈ sample_frame_indices s e num_frames, s ≤ x ∧ x < e) ∧
    (sample_frame_indices s e num_frames).Pairwise (· < ·) ∧
    (extract_frame_indices total_frames num_frames).length = num_frames ∧
    (∀ y ∈ extract_frame_indices total_frames num_frames, y < total_frames) ∧
    (num_frames ≤ total_frames →
      (extract_frame_indices total_frames num_frames).Pairwise (· < ·)) := by
  obtain ⟨hlt, hstot, hetot⟩ :=
    resolve_timeframe_bounds total_frames fps window s e htot hse
  refine ⟨sample_frame_indices_length s e num_frames, ?_,
    sample_frame_indices_pairwise s e num_frames hn,
    extract_frame_indices_length _ _, ?_, ?_⟩
  · intro x hx
    exact sample_frame_indices_mem s e num_frames x hn (le_of_lt hlt) hx
  · intro y hy
    exact extract_frame_indices_mem _ _ y (by omega) hn hy
  · intro hnt
    exact extract_frame_indices_pairwise _ _ hn hnt

/-- Counterexample for C1 as stated: `VideoService._extract_frames` with
`totalFrames = 3, desiredCount = 5` yields indices `[0, 0, 1, 1, 2]` —
five elements instead of `min(5, 3) = 3`, with duplicates, not strictly
increasing. -/
theorem sampler_coverage_cex :
    extract_frame_indices 3 5 = [0, 0, 1, 1, 2] ∧
    (extract_frame_indices 3 5).length ≠ min 5 3 ∧
    ¬ (extract_frame_indices 3 5).Pairwise (· < ·) := by
  refine ⟨by decide, by decide, by decide⟩

/-- Witness for C1: the spec's end-to-end scenario — 300 frames, whole
video, 5 requested — yields `[0, 60, 120, 180, 240]`, of length
`min 5 300`, strictly increasing. -/
theorem sampler_coverage_witness :
    sample_frame_indices 0 300 5 = [0, 60, 120, 180, 240] ∧
    (sample_frame_indices 0 300 5).length = min 5 (300 - 0) ∧
    (sample_frame_indices 0 300 5).Pairwise (· < ·) :=
  ⟨by decide,
    (sampler_coverage_amended 300 5 30 none 0 300 (by norm_num) (by norm_num)
      (by norm_num) rfl).1,
    (sampler_coverage_amended 300 5 30 none 0 300 (by norm_num) (by norm_num)
      (by norm_num) rfl).2.2.1⟩

/- ====================================================================
   Claim C7 — sample-window resolution (amended)
   ==================================================================== -/

/-- Claim C7 as amended: the code converts times with `int()` truncation
(not `round`), clamps the start frame into `[0, totalFrames - 1]`, and
forces the end frame to at least `startFrame + 1` via
`max(start_frame + 1, min(end_frame, total_frames))`; consequently every
window — including a degenerate one with `endTime ≤ startTime` — resolves
to a non-empty range and yields at least one frame index. -/
theorem window_resolution_amended (total_frames num_frames : ℕ)
    (fps start_time end_time : ℚ) (s e : ℕ)
    (htot : 1 ≤ total_frames) (hn : 1 ≤ num_frames)
    (hse : resolve_timeframe total_frames fps (some (start_time, end_time)) =
      (s, e)) :
    s < e ∧ s < total_frames ∧ e ≤ max (s + 1) total_frames ∧
    1 ≤ (sample_frame_indices s e num_frames).length := by
  obtain ⟨h1, h2, h3⟩ := resolve_timeframe_bounds total_frames fps
    (some (start_time, end_time)) s e htot hse
  refine ⟨h1, h2, h3, ?_⟩
  rw [sample_frame_indices_length]
  omega

/-- Counterexample for C7 as stated: with `totalFrames = 100`,
`frameRate = 30` and window `(0, 0.05)`, the code truncates
`0.05 * 30 = 1.5` to an end frame of 1, while the claim's
round-and-clamp resolution yields an end frame of 2. -/
theorem window_resolution_cex :
    resolve_timeframe 100 30 (some (0, 1/20)) = (0, 1) ∧
    resolve_timeframe_spec 100 30 0 (1/20) = (0, 2) ∧
    resolve_timeframe 100 30 (some (0, 1/20)) ≠
      resolve_timeframe_spec 100 30 0 (1/20) := by
  have h1 : resolve_timeframe 100 30 (some (0, 1/20)) = (0, 1) := by
    norm_num [resolve_timeframe, pyInt, pymax, pymin] <;> omega
  have h2 : resolve_timeframe_spec 100 30 0 (1/20) = (0, 2) := by
    norm_num [resolve_timeframe_spec, pymax, pymin, round_eq] <;> omega
  refine ⟨h1, h2, ?_⟩
  rw [h1, h2]
  decide

/-- Witness for C7: a degenerate window `(5, 2)` (endTime < startTime) on
a 100-frame, 30 fps video resolves to the non-empty range `(99, 100)` and
still yields at least one sampled index. -/
theorem window_resolution_witness :
    (99 : ℕ) < 100 ∧ 99 < 100 ∧ 100 ≤ max (99 + 1) 100 ∧
    1 ≤ (sample_frame_indices 99 100 3).length :=
  window_resolution_amended 100 3 30 5 2 99 100 (by norm_num) (by norm_num)
    (by norm_num [resolve_timeframe, pyInt, pymax, pymin] <;> omega)

lemma analyze_frames_eq {α : Type} (analyze : FrameData α → Except String String)
    (frames : List (FrameData α)) :
    analyze_frames analyze frames = frames.map (frame_record analyze) := by
  induction frames with
  | nil => rfl
  | cons fd rest ih => simp [analyze_frames, ih]

lemma clause_list_eq (l : List FrameAnalysis) :
    (List.range (l.map (fun fr => fr.description)).length).map (fun i =>
      "At " ++
        fmt1 ((l.getD i
          { timestamp := 0, frame_number := 0, description := "" }).timestamp) ++
        "s: " ++ (l.map (fun fr => fr.description)).getD i "")
    = l.map (fun fr => "At " ++ fmt1 fr.timestamp ++ "s: " ++ fr.description) := by
  induction l with
  | nil => simp
  | cons a t ih =>
    simp only [List.map_cons, List.length_cons, List.range_succ_eq_map,
      List.map_map, Function.comp, List.getD_cons_zero, List.getD_cons_succ]
    rw [List.cons_eq_cons]
    exact ⟨rfl, ih⟩

lemma mm_frame_loop_eq (read_frame : ℕ → Bool) (analyze_image : ℕ → AwsImageResult)
    (fps : ℚ) (indices : List ℕ) :
    mm_frame_loop read_frame analyze_image fps indices =
      (indices.filter (fun idx => read_frame idx && (analyze_image idx).success)).map
        (mm_frame_record analyze_image fps) := by
  induction indices with
  | nil => rfl
  | cons idx rest ih =>
    by_cases h1 : read_frame idx
    · by_cases h2 : (analyze_image idx).success
      · simp [mm_frame_loop, List.filter_cons, h1, h2, ih]
      · simp [mm_frame_loop, List.filter_cons, h1, h2, ih]
    · simp [mm_frame_loop, List.filter_cons, h1, ih]

/- ====================================================================
   Claim C6 — video summary synthesis (amended)
   ==================================================================== -/

/-- Claim C6 as amended: the summary branches on the frame-analysis entry
list, not on the count of successful frames — failed frames also contribute
entries whose description is "Analysis failed: {error}". An empty entry
list gives the fixed literal; exactly one entry with a non-empty
description gives "This video shows: {description}"; two or more entries
with non-empty descriptions give the clauses "At {timestamp}s:
{description}", one per frame in input order, joined by spaces after the
header "This video contains the following scenes:". -/
theorem video_summary_amended {α : Type} (frames : List (FrameData α))
    (analyze : FrameData α → Except String String) :
    (frames = [] →
      generate_video_summary (analyze_frames analyze frames) =
        "No frames were successfully analyzed.") ∧
    (∀ fd, frames = [fd] → frame_description (analyze fd) ≠ "" →
      generate_video_summary (analyze_frames analyze frames) =
        "This video shows: " ++ frame_description (analyze fd)) ∧
    (2 ≤ frames.length →
      (∀ fd ∈ frames, frame_description (analyze fd) ≠ "") →
      generate_video_summary (analyze_frames analyze frames) =
        String.intercalate " " ("This video contains the following scenes:" ::
          frames.map (fun fd =>
            "At " ++ fmt1 fd.timestamp ++ "s: " ++ frame_description (analyze fd)))) := by
  refine ⟨?_, ?_, ?_⟩
  · intro h
    subst h
    rfl
  · intro fd h hne
    subst h
    have hb : (frame_description (analyze fd) != "") = true := by
      simpa using hne
    simp [generate_video_summary, analyze_frames, frame_record, List.filter_cons, hb]
  · intro hlen hall
    rw [analyze_frames_eq]
    have hfil : ((frames.map (frame_record analyze)).filter
        (fun fr => fr.description != "")) = frames.map (frame_record analyze) := by
      apply List.filter_eq_self.mpr
      intro a ha
      simp only [List.mem_map] at ha
      obtain ⟨fd, hfd, rfl⟩ := ha
      simpa [frame_record] using hall fd hfd
    have hne1 : ¬ (frames.map (frame_record analyze) = []) := by
      intro hcon
      rw [List.map_eq_nil] at hcon
      subst hcon
      simp at hlen
    have hlen2 : ((frames.map (frame_record analyze)).map
        (fun fr => fr.description)).length = frames.length := by simp
    unfold generate_video_summary
    rw [if_neg hne1, hfil]
    have hnil2 : ¬ ((frames.map (frame_record analyze)).map
        (fun fr => fr.description) = []) := by
      intro hcon
      have hc : frames.length = 0 := by
        have h0 := congrArg List.length hcon
        rw [hlen2] at h0
        exact h0
      omega
    have hone : ¬ (((frames.map (frame_record analyze)).map
        (fun fr => fr.description)).length = 1) := by
      intro hcon
      rw [hlen2] at hcon
      omega
    rw [if_neg hnil2, if_neg hone]
    show " ".intercalate ("This video contains the following scenes:" ::
      (List.range ((frames.map (frame_record analyze)).map
        (fun fr => fr.description)).length).map (fun i =>
        "At " ++ fmt1 (((frames.map (frame_record analyze)).getD i
          { timestamp := 0, frame_number := 0, description := "" }).timestamp) ++
        "s: " ++ ((frames.map (frame_record analyze)).map
          (fun fr => fr.description)).getD i "")) = _
    rw [clause_list_eq]
    simp only [List.map_map, Function.comp_def, frame_record]

/-- Counterexample for C6 as stated: a single frame whose analysis raises
"boom" means zero frames succeeded, yet the summary is
"This video shows: Analysis failed: boom", not the claimed literal
"No frames were successfully analyzed." — the empty-summary literal is
produced only when the entry list itself is empty. -/
theorem video_summary_cex :
    (fun _ : FrameData Unit => (Except.error "boom" : Except String String))
        ⟨(), 0, 0⟩ = Except.error "boom" ∧
    generate_video_summary (analyze_frames
        (fun _ : FrameData Unit => Except.error "boom") [⟨(), 0, 0⟩]) =
      "This video shows: Analysis failed: boom" ∧
    "This video shows: Analysis failed: boom" ≠
      "No frames were successfully analyzed." := by
  refine ⟨rfl, ?_, by decide⟩
  decide

/- ====================================================================
   Claim C10 — silent frame dropping in the enhanced video pipeline
   ==================================================================== -/

/-- Claim C10: a sampled frame whose decode fails or whose analysis result
is unsuccessful is omitted entirely (the analysis list is exactly the
successful frames, no failure record), so its length is at most the number
of sampled indices, and the overall success flag is true iff at least one
sampled frame both decoded and analyzed successfully. -/
theorem silent_frame_dropping (read_frame : ℕ → Bool)
    (analyze_image : ℕ → AwsImageResult) (fps : ℚ) (frame_indices : List ℕ) :
    mm_frame_loop read_frame analyze_image fps frame_indices =
      (frame_indices.filter
        (fun idx => read_frame idx && (analyze_image idx).success)).map
        (mm_frame_record analyze_image fps) ∧
    (mm_frame_loop read_frame analyze_image fps frame_indices).length ≤
      frame_indices.length ∧
    (mm_result_success (mm_frame_loop read_frame analyze_image fps frame_indices)
        = true ↔
      ∃ idx ∈ frame_indices,
        read_frame idx = true ∧ (analyze_image idx).success = true) := by
  have heq := mm_frame_loop_eq read_frame analyze_image fps frame_indices
  refine ⟨heq, ?_, ?_⟩
  · rw [heq, List.length_map]
    exact List.length_filter_le _ frame_indices
  · rw [heq, mm_result_success]
    simp [List.length_pos, List.filter_eq_nil]

/-- Witness for C6: two frames at timestamps 0 and 2 both described "x"
produce the header plus one "At {t}s: x" clause per frame. -/
theorem video_summary_witness :
    generate_video_summary (analyze_frames
      (fun _ : FrameData Unit => Except.ok "x") [⟨(), 0, 0⟩, ⟨(), 60, 2⟩]) =
      String.intercalate " " ("This video contains the following scenes:" ::
        ([⟨(), 0, 0⟩, ⟨(), 60, 2⟩] : List (FrameData Unit)).map (fun fd =>
          "At " ++ fmt1 fd.timestamp ++ "s: " ++
            frame_description ((fun _ : FrameData Unit => Except.ok "x") fd))) ∧
    generate_video_summary (analyze_frames
      (fun _ : FrameData Unit => Except.ok "x") [⟨(), 0, 0⟩, ⟨(), 60, 2⟩]) =
      "This video contains the following scenes: At 0.0s: x At 2.0s: x" := by
  have h := (video_summary_amended
    ([⟨(), 0, 0⟩, ⟨(), 60, 2⟩] : List (FrameData Unit))
    (fun _ => Except.ok "x")).2.2 (by decide)
    (by intro fd _; simp [frame_description])
  refine ⟨h, ?_⟩
  rw [h]
  have hf0 : fmt1 0 = "0.0" := by
    have h0 : round ((0 : ℚ) * 10) = 0 := by norm_num
    simp only [fmt1, h0]
    decide
  have hf2 : fmt1 2 = "2.0" := by
    have h2 : round ((2 : ℚ) * 10) = 20 := by norm_num [round_eq]
    simp only [fmt1, h2]
    decide
  simp only [List.map_cons, List.map_nil, hf0, hf2]
  decide

/-- Witness for C10: with four sampled indices of which index 1 fails to
decode and index 2 analyzes unsuccessfully, only two entries remain and
the overall success flag is true. -/
theorem silent_frame_dropping_witness :
    (mm_frame_loop (fun i => decide (i ≠ 1))
      (fun i => ⟨decide (i ≠ 2), "d", "m"⟩) 1 [0, 1, 2, 3]).length = 2 ∧
    mm_result_success (mm_frame_loop (fun i => decide (i ≠ 1))
      (fun i => ⟨decide (i ≠ 2), "d", "m"⟩) 1 [0, 1, 2, 3]) = true := by
  constructor
  · rw [(silent_frame_dropping (fun i => decide (i ≠ 1))
      (fun i => ⟨decide (i ≠ 2), "d", "m"⟩) 1 [0, 1, 2, 3]).1]
    decide
  · exact (silent_frame_dropping (fun i => decide (i ≠ 1))
      (fun i => ⟨decide (i ≠ 2), "d", "m"⟩) 1 [0, 1, 2, 3]).2.2.mpr
      ⟨0, by decide, by decide, by decide⟩
